import Mathlib

/-!
Verification development for the DF-VO deep-model orchestration slice:
`libs/deep_models/deep_models.py` (class `DeepModel`) and
`libs/deep_models/flow/lite_flow_net/lite_flow.py` (class `LiteFlow`).

The definitions below are a shallow embedding of those two files.  Stateful
Python methods become explicit state-passing functions returning
`Except PyError`, tensors become rational-valued pixel maps, and the network
forward pass / optimizer step (opaque differentiable objects per the spec's
scope) enter as parameters.  Line numbers in the doc comments refer to the
two Python files.
-/

namespace DFVO

/-- Python runtime errors that the modelled code paths can raise. -/
inductive PyError
  | typeError
  | assertionError
  | nameError
  | attributeError
deriving DecidableEq

/-- Binding check for a Python keyword-only call: every keyword argument must
name a declared parameter (otherwise `TypeError: unexpected keyword argument`),
and every parameter without a default must be supplied (otherwise
`TypeError: missing required positional argument`). -/
def kwargsBindOk (required optionalParams kwargs : List String) : Bool :=
  kwargs.all (fun k => required.contains k || optionalParams.contains k) &&
  required.all (fun p => kwargs.contains p)

/-- Parameters of `LiteFlow.initialize_network_model` besides `self`
(lite_flow.py line 69): only `weight_path`, no defaults. -/
def initialize_network_model_required : List String := ["weight_path"]

/-- `LiteFlow.initialize_network_model` declares no defaulted parameters. -/
def initialize_network_model_optional : List String := []

/-- Keyword arguments passed by `DeepModel.initialize_deep_flow_model` to
`LiteFlow.initialize_network_model` (deep_models.py lines 64-67). -/
def initialize_deep_flow_model_kwargs : List String := ["weight_path", "finetune"]

/-- Required parameters of `LiteFlow.inference_flow` besides `self`
(lite_flow.py lines 273-277): `img1`, `img2`, `flow_dir` have no defaults. -/
def inference_flow_required : List String := ["img1", "img2", "flow_dir"]

/-- Defaulted parameters of `LiteFlow.inference_flow`
(lite_flow.py lines 276-277). -/
def inference_flow_optional : List String := ["forward_backward", "dataset"]

/-- Keyword arguments used by `DeepModel.forward_flow` when calling
`LiteFlow.inference_flow` (deep_models.py lines 157-161). -/
def forward_flow_call_kwargs : List String := ["img1", "img2", "forward_backward", "dataset"]

/-- DeepModel.initialize_deep_flow_model (deep_models.py lines 56-72): for the
`liteflow` network it constructs `LiteFlow` and calls
`initialize_network_model(weight_path=..., finetune=...)`.  Python checks the
keyword binding before the callee body runs, so a binding failure raises
`TypeError` before any weights are loaded.  `Except.ok ()` stands for the
callee body having completed (weights loaded); inside the body a `None` weight
path trips the `assert False` of lite_flow.py line 90; an unknown network name
trips the `assert False` of deep_models.py lines 69-71. -/
def DeepModel.initialize_deep_flow_model (network : String) (weight_path : Option String)
    (finetune_enable : Bool) : Except PyError Unit :=
  if network = "liteflow" then
    if kwargsBindOk initialize_network_model_required initialize_network_model_optional
        initialize_deep_flow_model_kwargs then
      match weight_path with
      | some _ => Except.ok ()
      | none => Except.error PyError.assertionError
    else Except.error PyError.typeError
  else Except.error PyError.assertionError

/-- Mutable state of the `LiteFlow` engine used by `inference_flow`:
the `finetune` flag (set at construction from config, lite_flow.py line 39 and
never cleared anywhere in the class), the per-engine frame counter `img_cnt`
(lite_flow.py line 46), the configured budget
`flow_cfg.online_finetune.num_frames` (an `int` or Python `None`), and the
network parameters, abstracted to one register since the architecture is an
opaque differentiable object. -/
structure LiteFlowState where
  finetune : Bool
  img_cnt : Nat
  num_frames : Option Nat
  weights : Int
deriving DecidableEq

/-- Observable facts about one `inference_flow` call: whether the network
forward pass ran under gradient tracking (`self.inference` vs the
`torch.no_grad`-decorated `self.inference_no_grad`, lite_flow.py lines 301-305)
and whether an optimizer step was applied (inside `train_flow`,
lite_flow.py lines 166-168). -/
structure FlowTrace where
  gradEnabled : Bool
  stepped : Bool
deriving DecidableEq

/-- LiteFlow.inference_flow (lite_flow.py lines 273-333), control-flow faithful:

* lines 301-305: the forward pass runs under gradient tracking iff
  `self.finetune` is set;
* lines 314-320: the local `flow_diff` is assigned only when
  `forward_backward` is true;
* line 323: `if self.finetune and self.img_cnt < self.flow_cfg.online_finetune.num_frames`;
  Python's `and` short-circuits, and comparing an `int` with `None` raises
  `TypeError`;
* line 324: `self.train_flow(combined_flow_data, flow_diff, img1, img2)`
  raises `UnboundLocalError` (a `NameError`) when `flow_diff` was never
  assigned; otherwise `train_flow` ends in one optimizer step, modelled by the
  parameter `step` mutating the weights;
* line 325: `self.img_cnt += 1` only on the trained path.

The flow values themselves are not needed by the properties about this
function and are modelled elsewhere (`forward_backward_consistency`,
`train_flow_outputs`). -/
def LiteFlow.inference_flow (step : Int → Int) (st : LiteFlowState)
    (forward_backward : Bool) : Except PyError (LiteFlowState × FlowTrace) :=
  if st.finetune then
    match st.num_frames with
    | none => Except.error PyError.typeError
    | some n =>
      if st.img_cnt < n then
        if forward_backward then
          Except.ok ({ st with weights := step st.weights, img_cnt := st.img_cnt + 1 },
                     { gradEnabled := st.finetune, stepped := true })
        else Except.error PyError.nameError
      else Except.ok (st, { gradEnabled := st.finetune, stepped := false })
  else Except.ok (st, { gradEnabled := st.finetune, stepped := false })

/-- State read and written by `DeepModel.finetune` (deep_models.py lines
230-283): the orchestrator frame counter `img_cnt` (deep_models.py line 110),
the budget `finetune_cfg.num_frames` (`int` or `None`), the config flags
`finetune_cfg.flow.enable` and `cfg.deep_flow.forward_backward`, the trainable
parameters (one abstract register) and whether the flow network has been
switched to evaluation mode (`self.flow.model.eval()`, line 275). -/
structure DeepModelState where
  img_cnt : Nat
  num_frames : Option Nat
  flow_enable : Bool
  forward_backward_cfg : Bool
  weights : Int
  flow_eval_mode : Bool
deriving DecidableEq

/-- Budget test of deep_models.py line 242:
`self.finetune_cfg.num_frames is None or self.img_cnt < self.finetune_cfg.num_frames`.
The `is None` disjunct is evaluated first, so a `None` budget never reaches the
integer comparison here. -/
def budgetOpen (dst : DeepModelState) : Bool :=
  match dst.num_frames with
  | none => true
  | some n => dst.img_cnt < n

/-- DeepModel.finetune (deep_models.py lines 230-283).  Inside the open-budget
branch: with flow finetuning enabled, line 254 asserts
`cfg.deep_flow.forward_backward` before anything else; with flow finetuning
disabled, `losses["loss"]` is still the plain integer `0` from line 244, so
`losses["loss"].backward()` at line 267 raises `AttributeError`.  With the
budget exhausted, the flow network is switched to eval mode (line 275) and the
counter is untouched.  Modelled from the spec: the loss-bundle construction
between the assertion and the optimizer step (lines 255-263) dereferences
attributes (`self.flow.flow_scales`, `self.flow.forward_flow`,
`self.flow.train`) resolved through the `DeepFlow` parent class, which is not
part of this repository slice; following spec section 4.5 ("builds the shared
loss bundle ... and issues one combined optimizer step") this part is taken to
succeed and to issue exactly one optimizer step (`step`), after which line 270
increments `img_cnt`. -/
def DeepModel.finetune (step : Int → Int) (dst : DeepModelState) : Except PyError DeepModelState :=
  if budgetOpen dst then
    if dst.flow_enable then
      if dst.forward_backward_cfg then
        Except.ok { dst with weights := step dst.weights, img_cnt := dst.img_cnt + 1 }
      else Except.error PyError.assertionError
    else Except.error PyError.attributeError
  else
    if dst.flow_enable then Except.ok { dst with flow_eval_mode := true }
    else Except.ok dst

/-- Attributes of the initialized depth engine that `DeepModel` preprocessing
reads (`feed_width`, `feed_height`, `finetune`). -/
structure DepthEngine where
  feed_width : Nat
  feed_height : Nat
  finetune : Bool
deriving DecidableEq

/-- Attributes of the initialized pose engine that `DeepModel.forward_pose`
reads. -/
structure PoseEngine where
  finetune : Bool
deriving DecidableEq

/-- DeepModel.forward_pose (deep_models.py lines 201-228).  `self.depth` and
`self.pose` are instance attributes assigned only by `initialize_models`
(lines 43-52), hence `Option`: reading a never-assigned attribute raises
`AttributeError`.  Preprocessing (line 214) resizes every input image to
`(self.depth.feed_width, self.depth.feed_height)` — the DEPTH engine's feed
size — before the pose network runs; the returned pair records the resize
target actually used, the pose matrix itself being an opaque network output. -/
def DeepModel.forward_pose (depth : Option DepthEngine) (pose : Option PoseEngine) :
    Except PyError (Nat × Nat) :=
  match depth with
  | none => Except.error PyError.attributeError
  | some d =>
    match pose with
    | none => Except.error PyError.attributeError
    | some _ => Except.ok (d.feed_width, d.feed_height)

/-- Keys of the dictionary returned by `DeepModel.forward_flow`
(deep_models.py lines 163-169): the tuple `(id1, id2)` or the tuple
`(id1, id2, "diff")`. -/
inductive FlowKey
  | pair (a b : Nat)
  | diff (a b : Nat)
deriving DecidableEq

/-- Which entry of the engine's result dictionary a `forward_flow` key is
bound to (lite_flow.py lines 327-332). -/
inductive FlowVal
  | forwardFlow
  | backwardFlow
  | flowDiff
deriving DecidableEq

/-- Dictionary assembled by deep_models.py lines 163-169: `(src_id, tgt_id)`
is always bound to the forward flow; `(tgt_id, src_id)` and
`(src_id, tgt_id, "diff")` are added exactly when `forward_backward` is
true. -/
def forward_flow_entries (src_id tgt_id : Nat) (forward_backward : Bool) :
    List (FlowKey × FlowVal) :=
  (FlowKey.pair src_id tgt_id, FlowVal.forwardFlow) ::
    (if forward_backward then
      [(FlowKey.pair tgt_id src_id, FlowVal.backwardFlow),
       (FlowKey.diff src_id tgt_id, FlowVal.flowDiff)]
    else [])

/-- DeepModel.forward_flow (deep_models.py lines 132-170).  The delegation at
lines 157-161 calls `LiteFlow.inference_flow` with keywords `img1`, `img2`,
`forward_backward`, `dataset` only; the callee's required parameter `flow_dir`
(lite_flow.py line 275, no default) is never supplied, so Python raises
`TypeError` at the call, before the result dictionary of lines 163-169 is
built. -/
def DeepModel.forward_flow (src_id tgt_id : Nat) (forward_backward : Bool) :
    Except PyError (List (FlowKey × FlowVal)) :=
  if kwargsBindOk inference_flow_required inference_flow_optional forward_flow_call_kwargs
  then Except.ok (forward_flow_entries src_id tgt_id forward_backward)
  else Except.error PyError.typeError

/-- Mean of a flattened tensor, `tensor.mean()`. -/
def tmean (t : List ℚ) : ℚ := t.sum / (t.length : ℚ)

/-- The three `outputs` entries relevant to the flow loss, keyed
`('flow', 0, 1, 1)`, `('flow', 1, 0, 1)` and `('flow_diff', 0, 1, 1)`
(the single configured scale is `1`, lite_flow.py line 48). -/
structure FlowOutputs where
  flow_0_1 : List ℚ
  flow_1_0 : List ℚ
  flow_diff_0_1 : List ℚ
deriving DecidableEq

/-- Outputs dictionary built by `LiteFlow.train_flow` (lite_flow.py lines
156-160) from `combined_flow_data` (whose slice `[0:1]` is the forward flow
and `[1:2]` the backward flow) and its `flow_diff` argument.  Line 159 binds
the `('flow_diff', 0, 1, 1)` entry to `combined_flow_data[0:1]` — the forward
flow slice — and the `flow_diff` argument is not used. -/
def train_flow_outputs (combined_forward combined_backward flow_diff : List ℚ) : FlowOutputs :=
  { flow_0_1 := combined_forward
    flow_1_0 := combined_backward
    flow_diff_0_1 := combined_forward }

/-- Forward-backward consistency term accumulated into the per-scale loss by
`LiteFlow.compute_flow_losses` (lite_flow.py lines 250-253):
`flow_consistency * outputs[('flow_diff', 0, frame_id, scale)].mean() / (2 ** scale)`
for the single non-"s" frame id `1`. -/
def flow_consistency_term (flow_consistency : ℚ) (scale : Nat) (outputs : FlowOutputs) : ℚ :=
  flow_consistency * tmean outputs.flow_diff_0_1 / 2 ^ scale

/-- Per-scale flow loss of `LiteFlow.compute_flow_losses` (lite_flow.py lines
199-259) for one scale, then averaged over the configured scale list
(`flow_scales = [1]`, so `num_flow_scale = 1`).  The reprojection mean and the
two edge-aware smoothness penalties are built from `SSIM` and
`get_smooth_loss`, whose sources live outside this repository slice, so they
enter as opaque scalar inputs `to_optimise_mean`, `smooth_fwd`, `smooth_bwd`. -/
def compute_flow_losses_flow_loss (to_optimise_mean smooth_fwd smooth_bwd
    flow_smoothness flow_consistency : ℚ) (scale : Nat) (outputs : FlowOutputs) : ℚ :=
  (to_optimise_mean
    + flow_smoothness * smooth_fwd / 2 ^ scale
    + flow_smoothness * smooth_bwd / 2 ^ scale
    + flow_consistency_term flow_consistency scale outputs) / 1

/-- One channel plane of an image tensor: a rational intensity per (row,
column) index. -/
abbrev Img := Nat → Nat → ℚ

/-- Channel-axis mean of a multichannel tensor at one pixel:
`tensor.mean(1, True)` evaluated at `(i, j)`. -/
def channelMeanAt (chans : List Img) (i j : Nat) : ℚ :=
  (chans.map (fun c => c i j)).sum / (chans.length : ℚ)

/-- LiteFlow.compute_reprojection_loss (lite_flow.py lines 261-271), per
output pixel `(i, j)`: `abs_diff = torch.abs(target - pred)`,
`l1_loss = abs_diff.mean(1, True)`,
`ssim_loss = self.ssim(pred, target).mean(1, True)`, result
`0.85 * ssim_loss + 0.15 * l1_loss`.  The SSIM module comes from
`monodepth2.layers`, outside this slice, so it is a function parameter. -/
def compute_reprojection_loss (ssim : List Img → List Img → List Img)
    (pred target : List Img) (i j : Nat) : ℚ :=
  let abs_diff := List.zipWith (fun t p => fun a b => |t a b - p a b|) target pred
  let l1_loss := channelMeanAt abs_diff i j
  let ssim_loss := channelMeanAt (ssim pred target) i j
  0.85 * ssim_loss + 0.15 * l1_loss

/-- Specification wording of spec.md section 4.2: `reprojection_loss(pred,
target)` is `0.85 * structural_similarity_loss(pred, target) +
0.15 * mean_abs_diff(pred, target)`, each reduced per-pixel over the channel
axis by the mean.  Written from the spec's words for comparison with the
source-derived `compute_reprojection_loss`. -/
def reprojection_loss_spec (ssim : List Img → List Img → List Img)
    (pred target : List Img) (i j : Nat) : ℚ :=
  0.85 * channelMeanAt (ssim pred target) i j +
  0.15 * channelMeanAt (List.zipWith (fun p t => fun a b => |p a b - t a b|) pred target) i j

/-- Padding mode of `torch.nn.functional.grid_sample`: `zeros` (the default,
out-of-bounds taps contribute zero) or `border` (tap indices clamp to the
image edge). -/
inductive PadMode
  | zeros
  | border
deriving DecidableEq

/-- Clamp an integer tap index into `[0, n-1]` (border padding). -/
def clampIdx (n : Nat) (i : Int) : Nat := (max (min i ((n : Int) - 1)) 0).toNat

/-- Value contributed by the integer tap `(iy, ix)` when sampling an `H`x`W`
image under the given padding mode. -/
def tapVal : PadMode → Img → Nat → Nat → Int → Int → ℚ
  | PadMode.zeros, img, H, W, iy, ix =>
      if 0 ≤ iy ∧ iy < (H : Int) ∧ 0 ≤ ix ∧ ix < (W : Int) then img iy.toNat ix.toNat else 0
  | PadMode.border, img, H, W, iy, ix => img (clampIdx H iy) (clampIdx W ix)

/-- Map a normalized grid coordinate in [-1, 1] to a continuous pixel
coordinate (`grid_sample` unnormalization, `align_corners` left at its
default False): `((g + 1) * size - 1) / 2`. -/
def unnormalize (size : Nat) (g : ℚ) : ℚ := ((g + 1) * (size : ℚ) - 1) / 2

/-- Bilinear `grid_sample` of one channel at one output location: the grid
entry `(gx, gy)` is unnormalized to pixel space, the four surrounding integer
taps are read under the padding mode, and blended with the bilinear
weights. -/
def gridSample (pad : PadMode) (img : Img) (H W : Nat) (gx gy : ℚ) : ℚ :=
  let x := unnormalize W gx
  let y := unnormalize H gy
  let x0 : Int := ⌊x⌋
  let y0 : Int := ⌊y⌋
  let wx : ℚ := x - (x0 : ℚ)
  let wy : ℚ := y - (y0 : ℚ)
  (1 - wy) * ((1 - wx) * tapVal pad img H W y0 x0 + wx * tapVal pad img H W y0 (x0 + 1)) +
  wy * ((1 - wx) * tapVal pad img H W (y0 + 1) x0 + wx * tapVal pad img H W (y0 + 1) (x0 + 1))

/-- Image warp of `LiteFlow.generate_images_pred_flow` (lite_flow.py lines
183-186 and 194-197): `F.grid_sample(color, pix_coords, padding_mode="border")`,
one channel at one output location. -/
def warpImageReprojection (imgc : Img) (H W : Nat) (gx gy : ℚ) : ℚ :=
  gridSample PadMode.border imgc H W gx gy

/-- Warp of the negated backward flow inside
`LiteFlow.forward_backward_consistency` (lite_flow.py line 347):
`F.grid_sample(-flow2, px1on2)` with no `padding_mode` argument, hence the
default zero padding; one channel at one output location. -/
def warpNegBackwardFlow (flow2c : Img) (H W : Nat) (gx gy : ℚ) : ℚ :=
  gridSample PadMode.zeros (fun a b => -(flow2c a b)) H W gx gy

/-- LiteFlow.forward_backward_consistency (lite_flow.py lines 335-360) at one
output pixel `(i, j)` of batch element 0: warp the negated backward flow with
the forward view's sampling grid `px1on2`, subtract from the forward flow, and
take the per-pixel Euclidean norm over the two flow channels
(`flow_diff.norm(dim=1, keepdim=True)`; the `UnFlow_constrain` branch of lines
353-355 is statically disabled).  The channels-last permute of line 359 is
the identity on a single pixel value. -/
noncomputable def forward_backward_consistency (H W : Nat) (flow1u flow1v flow2u flow2v : Img)
    (px1on2 : Nat → Nat → ℚ × ℚ) (i j : Nat) : ℝ :=
  let gx := (px1on2 i j).1
  let gy := (px1on2 i j).2
  let wu := warpNegBackwardFlow flow2u H W gx gy
  let wv := warpNegBackwardFlow flow2v H W gx gy
  Real.sqrt (((flow1u i j - wu : ℚ) : ℝ) ^ 2 + ((flow1v i j - wv : ℚ) : ℝ) ^ 2)

/-! ## Helper lemmas -/

/-- A nonpositive tap index clamps to 0 under border padding. -/
theorem clampIdx_of_nonpos (n : Nat) (i : Int) (h : i ≤ 0) : clampIdx n i = 0 := by
  unfold clampIdx
  rw [max_eq_right (le_trans (min_le_left _ _) h)]
  rfl

/-- Border padding: a tap whose indices are both nonpositive reads the
top-left corner pixel. -/
theorem tapVal_border_nonpos (img : Img) (H W : Nat) (iy ix : Int) (hy : iy ≤ 0) (hx : ix ≤ 0) :
    tapVal PadMode.border img H W iy ix = img 0 0 := by
  simp [tapVal, clampIdx_of_nonpos _ _ hy, clampIdx_of_nonpos _ _ hx]

/-- Zero padding: a tap with negative column index contributes zero. -/
theorem tapVal_zeros_neg (img : Img) (H W : Nat) (iy ix : Int) (hx : ix < 0) :
    tapVal PadMode.zeros img H W iy ix = 0 := by
  have hc : ¬(0 ≤ iy ∧ iy < (H : Int) ∧ 0 ≤ ix ∧ ix < (W : Int)) := by
    rintro ⟨_, _, h3, _⟩; omega
  simp [tapVal, hc]

/-- Sampling an everywhere-zero image yields zero under either padding mode
and any grid coordinate. -/
theorem gridSample_zero_img (pad : PadMode) (img : Img) (H W : Nat) (gx gy : ℚ)
    (h : ∀ a b, img a b = 0) : gridSample pad img H W gx gy = 0 := by
  have ht : ∀ iy ix : Int, tapVal pad img H W iy ix = 0 := by
    intro iy ix
    cases pad
    · simp [tapVal, h]
    · simp [tapVal, h]
  simp [gridSample, ht]

/-- Sampling at a grid location whose continuous pixel coordinates are both
below -1 reads the top-left corner pixel under border padding. -/
theorem gridSample_border_low (img : Img) (H W : Nat) (gx gy : ℚ)
    (hx : unnormalize W gx < -1) (hy : unnormalize H gy < -1) :
    gridSample PadMode.border img H W gx gy = img 0 0 := by
  have hx0 : ⌊unnormalize W gx⌋ ≤ -2 := by
    have h1 : ((⌊unnormalize W gx⌋ : Int) : ℚ) < -1 := lt_of_le_of_lt (Int.floor_le _) hx
    have h2 : ⌊unnormalize W gx⌋ < -1 := by exact_mod_cast h1
    omega
  have hy0 : ⌊unnormalize H gy⌋ ≤ -2 := by
    have h1 : ((⌊unnormalize H gy⌋ : Int) : ℚ) < -1 := lt_of_le_of_lt (Int.floor_le _) hy
    have h2 : ⌊unnormalize H gy⌋ < -1 := by exact_mod_cast h1
    omega
  simp only [gridSample]
  rw [tapVal_border_nonpos _ _ _ _ _ (by omega) (by omega),
      tapVal_border_nonpos _ _ _ _ _ (by omega) (by omega),
      tapVal_border_nonpos _ _ _ _ _ (by omega) (by omega),
      tapVal_border_nonpos _ _ _ _ _ (by omega) (by omega)]
  ring

/-- Sampling at a grid location whose continuous column coordinate is below -1
yields zero under zero padding (all four taps are out of bounds or carry
weight on an out-of-bounds column). -/
theorem gridSample_zeros_low (img : Img) (H W : Nat) (gx gy : ℚ)
    (hx : unnormalize W gx < -1) :
    gridSample PadMode.zeros img H W gx gy = 0 := by
  have hx0 : ⌊unnormalize W gx⌋ ≤ -2 := by
    have h1 : ((⌊unnormalize W gx⌋ : Int) : ℚ) < -1 := lt_of_le_of_lt (Int.floor_le _) hx
    have h2 : ⌊unnormalize W gx⌋ < -1 := by exact_mod_cast h1
    omega
  simp only [gridSample]
  rw [tapVal_zeros_neg _ _ _ _ _ (by omega),
      tapVal_zeros_neg _ _ _ _ _ (by omega),
      tapVal_zeros_neg _ _ _ _ _ (by omega),
      tapVal_zeros_neg _ _ _ _ _ (by omega)]
  ring

/-- Channel-wise evaluation of the absolute-difference tensor is symmetric in
the operand order. -/
theorem zip_absdiff_eval_sum (i j : Nat) :
    ∀ tg pr : List Img,
      ((List.zipWith (fun t p => fun a b => |t a b - p a b|) tg pr).map (fun c => c i j)).sum =
      ((List.zipWith (fun p t => fun a b => |p a b - t a b|) pr tg).map (fun c => c i j)).sum := by
  intro tg
  induction tg with
  | nil => intro pr; cases pr <;> simp
  | cons t ts ih =>
    intro pr
    cases pr with
    | nil => simp
    | cons p ps =>
      simp only [List.zipWith_cons_cons, List.map_cons, List.sum_cons]
      rw [ih ps, abs_sub_comm]

/-! ## Claim theorems -/

/-- Claim C1, counterexample: with the budget already reached
(`img_cnt = num_frames = 1`) and the finetune flag set, a further
`inference_flow` call applies no optimizer step and leaves the state (hence the
weights) bit-identical, but the run trace shows the forward pass still executed
under gradient tracking (`gradEnabled = true`), refuting "the engine is in the
Frozen state with gradient tracking disabled". -/
theorem budget_reached_grad_still_enabled :
    LiteFlow.inference_flow (fun w => w + 1) ⟨true, 1, some 1, 0⟩ true =
      Except.ok (⟨true, 1, some 1, 0⟩, ⟨true, false⟩) ∧
    (FlowTrace.mk true false).gradEnabled ≠ false :=
  ⟨rfl, by decide⟩

/-- Claim C1 (amended): along any successful `inference_flow` call with an
integer budget, `img_cnt` is monotonically non-decreasing and never exceeds
the budget, and once `img_cnt` equals the budget no optimizer step occurs and
the weights stay bit-identical; however gradient tracking is not disabled: the
forward pass runs under gradient tracking exactly when the `finetune` flag is
set, and the call never clears that flag. -/
theorem flow_budget_invariant (step : Int → Int) (st st2 : LiteFlowState) (tr : FlowTrace)
    (fb : Bool) (n : Nat) (hn : st.num_frames = some n) (hle : st.img_cnt ≤ n)
    (hrun : LiteFlow.inference_flow step st fb = Except.ok (st2, tr)) :
    st2.img_cnt ≤ n ∧ st.img_cnt ≤ st2.img_cnt ∧ tr.gradEnabled = st.finetune ∧
    st2.finetune = st.finetune ∧
    (st.img_cnt = n → st2.weights = st.weights ∧ tr.stepped = false) := by
  obtain ⟨f, cnt, nf, w⟩ := st
  obtain rfl : nf = some n := hn
  simp only [LiteFlow.inference_flow] at hrun
  by_cases hf : f = true
  · subst hf
    rw [if_pos rfl] at hrun
    by_cases hlt : cnt < n
    · rw [if_pos hlt] at hrun
      cases fb
      · exact absurd hrun (by simp)
      · rw [if_pos rfl] at hrun
        injection hrun with h
        injection h with h1 h2
        subst h1; subst h2
        exact ⟨hlt, Nat.le_succ _, rfl, rfl, fun h => absurd h (Nat.ne_of_lt hlt)⟩
    · rw [if_neg hlt] at hrun
      injection hrun with h
      injection h with h1 h2
      subst h1; subst h2
      exact ⟨hle, Nat.le_refl _, rfl, rfl, fun _ => ⟨rfl, rfl⟩⟩
  · rw [if_neg hf] at hrun
    injection hrun with h
    injection h with h1 h2
    subst h1; subst h2
    exact ⟨hle, Nat.le_refl _, rfl, rfl, fun _ => ⟨rfl, rfl⟩⟩

/-- Claim C1, witness for `flow_budget_invariant` at the concrete exhausted
state with budget 1, counter 1 and weights 5. -/
theorem flow_budget_invariant_witness :
    (1 : Nat) ≤ 1 ∧ (1 : Nat) ≤ 1 ∧ true = true ∧ true = true ∧
    ((1 : Nat) = 1 → (5 : Int) = 5 ∧ false = false) :=
  flow_budget_invariant (fun w => w + 1) ⟨true, 1, some 1, 5⟩ ⟨true, 1, some 1, 5⟩
    ⟨true, false⟩ true 1 rfl (Nat.le_refl 1) rfl

/-- Claim C2 (code bug): `LiteFlow.train_flow` binds the
`('flow_diff', 0, 1, 1)` output to the forward-flow slice of
`combined_flow_data` instead of its `flow_diff` argument, so with forward flow
constantly 4, consistency weight 1 and scale 1 the loss term is 2, whereas the
weighted mean of the actual consistency map (constantly 0) is 0. -/
theorem train_flow_consistency_term_uses_forward_flow :
    (train_flow_outputs [4, 4] [9, 9] [0, 0]).flow_diff_0_1 = [4, 4] ∧
    flow_consistency_term 1 1 (train_flow_outputs [4, 4] [9, 9] [0, 0]) = 2 ∧
    (1 : ℚ) * tmean [0, 0] / 2 ^ 1 = 0 ∧ (2 : ℚ) ≠ 0 := by
  refine ⟨rfl, ?_, ?_, by norm_num⟩
  · norm_num [flow_consistency_term, train_flow_outputs, tmean]
  · norm_num [tmean]

/-- Claim C3 (code bug): `DeepModel.forward_flow` never returns the documented
frame-id-keyed mapping because its call to `LiteFlow.inference_flow` omits the
required parameter `flow_dir`, raising `TypeError` for either value of
`forward_backward`. -/
theorem forward_flow_missing_flow_dir :
    DeepModel.forward_flow 0 1 true = Except.error PyError.typeError ∧
    DeepModel.forward_flow 0 1 false = Except.error PyError.typeError ∧
    inference_flow_required.contains "flow_dir" = true ∧
    forward_flow_call_kwargs.contains "flow_dir" = false :=
  ⟨rfl, rfl, rfl, rfl⟩

/-- Claim C4, counterexample: an engine-level finetune attempt
(`finetune = true`, budget open) with `forward_backward = false` fails with an
`UnboundLocalError` (`NameError`) on the never-assigned `flow_diff`, not with
an `AssertionError`, refuting "the call fails with an assertion". -/
theorem engine_finetune_unbound_flow_diff :
    LiteFlow.inference_flow (fun w => w + 1) ⟨true, 0, some 5, 0⟩ false =
      Except.error PyError.nameError ∧
    PyError.nameError ≠ PyError.assertionError :=
  ⟨rfl, by decide⟩

/-- Claim C4 (amended): a finetune attempt with `forward_backward` false never
silently skips the step and never reaches an optimizer step, but the failure
differs by path: the orchestrator's `DeepModel.finetune` fails with the
line-254 `AssertionError`, while the engine's `LiteFlow.inference_flow` fails
with an `UnboundLocalError` on `flow_diff`. -/
theorem finetune_without_forward_backward_fails (step : Int → Int) (st : LiteFlowState)
    (dst : DeepModelState) (n : Nat) (h1 : st.finetune = true) (h2 : st.num_frames = some n)
    (h3 : st.img_cnt < n) (h4 : budgetOpen dst = true) (h5 : dst.flow_enable = true)
    (h6 : dst.forward_backward_cfg = false) :
    LiteFlow.inference_flow step st false = Except.error PyError.nameError ∧
    DeepModel.finetune step dst = Except.error PyError.assertionError := by
  constructor
  · simp [LiteFlow.inference_flow, h1, h2, h3]
  · simp [DeepModel.finetune, h4, h5, h6]

/-- Claim C4, witness for `finetune_without_forward_backward_fails` at a
concrete open-budget state of each component. -/
theorem finetune_without_forward_backward_fails_witness :
    LiteFlow.inference_flow (fun w => w + 2) ⟨true, 0, some 3, 0⟩ false =
      Except.error PyError.nameError ∧
    DeepModel.finetune (fun w => w + 2) ⟨0, some 3, true, false, 0, false⟩ =
      Except.error PyError.assertionError :=
  finetune_without_forward_backward_fails (fun w => w + 2) ⟨true, 0, some 3, 0⟩
    ⟨0, some 3, true, false, 0, false⟩ 3 rfl rfl (by decide) rfl rfl rfl

/-- Claim C5 (code bug): with a `None` budget the engine's own budget check at
lite_flow.py line 323 compares an `int` with `None` and raises `TypeError`, so
an enabled finetune call fails instead of training; the orchestrator's check
at deep_models.py line 242 does treat `None` as unbounded (it evaluates to
true without error). -/
theorem none_budget_engine_type_error :
    LiteFlow.inference_flow (fun w => w + 1) ⟨true, 0, none, 0⟩ true =
      Except.error PyError.typeError ∧
    budgetOpen ⟨0, none, true, true, 0, false⟩ = true :=
  ⟨rfl, rfl⟩

/-- Claim C6, counterexample: the consistency-checker warp (zero padding, the
`grid_sample` default at lite_flow.py line 347) returns 0 at an out-of-bounds
grid coordinate where border clamping would return the edge value 5, refuting
"every warp ... clamps to the nearest edge value and never ... fills with
zeros". -/
theorem consistency_warp_zero_fills :
    warpNegBackwardFlow (fun _ _ => (-5 : ℚ)) 1 1 (-3) (-3) = 0 ∧
    gridSample PadMode.border (fun a b => -((fun _ _ => (-5 : ℚ)) a b)) 1 1 (-3) (-3) = 5 ∧
    (0 : ℚ) ≠ 5 := by
  refine ⟨?_, ?_, by norm_num⟩
  · exact gridSample_zeros_low _ _ _ _ _ (by norm_num [unnormalize])
  · rw [gridSample_border_low _ _ _ _ _ (by norm_num [unnormalize]) (by norm_num [unnormalize])]
    norm_num

/-- Claim C6 (amended): the image-reprojection warps of
`generate_images_pred_flow` use border-clamped bilinear interpolation (any
fully out-of-bounds sample, here beyond the low edges, returns the
nearest-edge pixel), while the warp of the negated backward flow inside the
consistency checker uses the zero-padding `grid_sample` default (the same
out-of-bounds sample returns 0, whatever the flow values). -/
theorem warp_padding_modes (img flow2c : Img) (H W : Nat) (gx gy : ℚ)
    (hx : unnormalize W gx < -1) (hy : unnormalize H gy < -1) :
    warpImageReprojection img H W gx gy = img 0 0 ∧
    warpNegBackwardFlow flow2c H W gx gy = 0 :=
  ⟨gridSample_border_low img H W gx gy hx hy,
   gridSample_zeros_low (fun a b => -(flow2c a b)) H W gx gy hx⟩

/-- Claim C6, witness for `warp_padding_modes` on a 1x1 image of value 7 and
an out-of-bounds grid coordinate. -/
theorem warp_padding_modes_witness :
    warpImageReprojection (fun _ _ => (7 : ℚ)) 1 1 (-3) (-3) = 7 ∧
    warpNegBackwardFlow (fun _ _ => (3 : ℚ)) 1 1 (-3) (-3) = 0 :=
  warp_padding_modes (fun _ _ => 7) (fun _ _ => 3) 1 1 (-3) (-3)
    (by norm_num [unnormalize]) (by norm_num [unnormalize])

/-- Claim C7: when both flow fields are the zero field, the consistency map of
`forward_backward_consistency` is exactly zero at every pixel, for every
resolution and every sampling grid (the warp of the negated zero field is the
zero field, so the difference and its Euclidean norm vanish). -/
theorem consistency_map_zero_for_zero_flows (H W : Nat) (px1on2 : Nat → Nat → ℚ × ℚ)
    (i j : Nat) :
    forward_backward_consistency H W (fun _ _ => 0) (fun _ _ => 0) (fun _ _ => 0) (fun _ _ => 0)
      px1on2 i j = 0 := by
  have hw : ∀ gx gy : ℚ, warpNegBackwardFlow (fun _ _ => (0 : ℚ)) H W gx gy = 0 := by
    intro gx gy
    exact gridSample_zero_img _ _ _ _ _ _ (by intro a b; simp)
  simp [forward_backward_consistency, hw]

/-- Claim C8: `compute_reprojection_loss` agrees, at every pixel and for every
SSIM building block, with the spec's formula: 0.85 times the channel-mean of
the structural-similarity loss plus 0.15 times the channel-mean of the
absolute difference. -/
theorem reprojection_loss_matches_spec (ssim : List Img → List Img → List Img)
    (pred target : List Img) (i j : Nat) :
    compute_reprojection_loss ssim pred target i j = reprojection_loss_spec ssim pred target i j := by
  simp only [compute_reprojection_loss, reprojection_loss_spec, channelMeanAt]
  rw [zip_absdiff_eval_sum, List.length_zipWith, List.length_zipWith,
      Nat.min_comm target.length pred.length]

/-- Claim C9 (code bug): `DeepModel.forward_pose` preprocessing reads the
depth engine's `feed_width`/`feed_height`; with the pose engine configured but
no depth engine initialized it raises `AttributeError`, and when a depth
engine is present the resize target it uses is the depth engine's feed size. -/
theorem forward_pose_reads_depth_engine :
    DeepModel.forward_pose none (some ⟨false⟩) = Except.error PyError.attributeError ∧
    DeepModel.forward_pose (some ⟨320, 96, false⟩) (some ⟨false⟩) = Except.ok (320, 96) :=
  ⟨rfl, rfl⟩

/-- Claim C10: for the `liteflow` network with any non-None weight path, the
call made by `DeepModel.initialize_deep_flow_model` passes the keyword
argument `finetune`, which `LiteFlow.initialize_network_model` does not
accept, so the call raises `TypeError` before any weights are loaded and
initialization through `DeepModel` never completes. -/
theorem initialize_flow_model_unexpected_kwarg (w : String) (ft : Bool) :
    DeepModel.initialize_deep_flow_model "liteflow" (some w) ft =
      Except.error PyError.typeError :=
  rfl

end DFVO
